import Mathlib

/-!
Verification of the medical-mcp server core.

This development gives a shallow embedding of the session/transport layer,
the PBS parameter allow-list, the `search-drugs` tool handler (all from
`src/index.ts`), and the throttled/cached PBS upstream gateway (whose
implementation file is not part of the sources here; it is modelled from
the specification), and proves the specified properties about them.

Conventions of the embedding:
- JavaScript objects used as string maps become association lists
  `List (String × String)`; the key set of a map becomes a `List String`.
- Timestamps (`Date.now()`) are natural numbers (milliseconds); where the
  JavaScript code subtracts timestamps as IEEE doubles, the model subtracts
  in `Int` so that negative differences behave as in the source.
- `JSON.parse` is an external runtime primitive; its outcome on a request
  body is modelled by `RawBody`: either `malformed` (the parse threw) or a
  parsed JSON value.
- Asynchronous handlers are pure functions; an upstream call that can throw
  is a function into `Except`.
-/

namespace MedicalMcp

/-! ### JavaScript string primitives

`String.prototype.trim`, `toLowerCase` and `includes` are runtime
primitives of the host language; they are modelled here as executable
character-list functions. -/

/-- The ASCII whitespace characters stripped by JavaScript
`String.prototype.trim` (space, tab, line feed, carriage return, vertical
tab, form feed; the queries of interest contain no exotic Unicode
whitespace). -/
def isJsWhitespace (c : Char) : Bool :=
  c = ' ' || c = '\t' || c = '\n' || c = '\r' || c = '\x0b' || c = '\x0c'

/-- JavaScript `String.prototype.trim`: drop whitespace from both ends. -/
def jsTrim (s : String) : String :=
  (((s.toList.dropWhile isJsWhitespace).reverse.dropWhile isJsWhitespace).reverse).asString

/-- JavaScript `String.prototype.toLowerCase` (character-wise). -/
def jsToLower (s : String) : String :=
  (s.toList.map Char.toLower).asString

/-- Whether `pat` occurs as a contiguous run inside a character list. -/
def occursIn (pat : List Char) : List Char → Bool
  | [] => pat.isEmpty
  | c :: rest => pat.isPrefixOf (c :: rest) || occursIn pat rest

/-- JavaScript `String.prototype.includes`: substring containment. -/
def containsSub (s pat : String) : Bool :=
  occursIn pat.toList s.toList

/-! ## PBS parameter allow-lists (`pickAllowedParams`, src/index.ts:123-391) -/

/-- The generic PBS query controls, from the `common` array in
`pickAllowedParams` (src/index.ts:125). -/
def commonParams : List String :=
  ["limit", "page", "sort", "sort_fields", "fields", "filter"]

/-- The per-endpoint allow-list table, from the `perEndpoint` record in
`pickAllowedParams` (src/index.ts:126-384).  An endpoint absent from the
table maps to `[]`, as `perEndpoint[endpoint] || []` does. -/
def perEndpointParams (endpoint : String) : List String :=
  match endpoint with
  | "schedules" =>
    ["schedule_code", "revision_number", "effective_date", "effective_month",
     "effective_year", "get_latest_schedule_only"]
  | "items" =>
    ["schedule_code", "li_item_id", "drug_name", "li_drug_name", "li_form",
     "schedule_form", "brand_name", "program_code", "pbs_code",
     "benefit_type_code", "pack_size", "pricing_quantity"]
  | "item-overview" =>
    ["schedule_code", "li_item_id", "drug_name", "li_drug_name", "li_form",
     "schedule_form", "brand_name", "program_code", "pbs_code",
     "benefit_type_code", "caution_indicator", "note_indicator",
     "manner_of_administration", "moa_preferred_term",
     "maximum_prescribable_pack", "maximum_quantity_units",
     "number_of_repeats", "organisation_id", "manufacturer_code",
     "pack_size", "pricing_quantity", "pack_not_to_be_broken_ind",
     "claimed_price", "determined_price", "determined_qty",
     "safety_net_resupply_rule_days", "safety_net_resup_rule_cnt_ind",
     "extemporaneous_indicator", "extemporaneous_standard",
     "doctors_bag_group_id", "section100_only_indicator",
     "doctors_bag_only_indicator", "brand_substitution_group_id",
     "brand_substitution_group_code", "continued_dispensing_emergency",
     "continued_dispensing_flag", "supply_only_indicator",
     "supply_only_date", "non_effective_date",
     "weighted_avg_disclosed_price", "originator_brand_indicator",
     "paper_med_chart_eligible_ind", "elect_med_chart_eligible_ind",
     "hsptl_med_chart_eligible_ind", "paper_med_chart_duration",
     "elect_med_chart_duration", "hsptl_chart_acute_duration",
     "hsptl_chart_sub_acute_duration", "hsptl_chart_chronic_duration",
     "pack_content", "vial_content", "infusible_indicator",
     "unit_of_measure", "maximum_amount", "formulary", "water_added_ind",
     "section_19a_expiry_date", "container_fee_type",
     "policy_applied_bio_sim_up_flag", "policy_applied_imdq60_flag",
     "policy_applied_imdq60_base_flag", "policy_applied_indig_phar_flag",
     "therapeutic_exemption_indicator", "premium_exemption_group_id",
     "doctors_bag_group_title", "therapeutic_group_id",
     "therapeutic_group_title", "advanced_notice_date",
     "supply_only_end_date", "first_listed_date", "legal_unar_ind",
     "legal_car_ind", "proportional_price", "get_latest_schedule_only"]
  | "organisations" =>
    ["organisation_id", "schedule_code", "name", "abn", "street_address",
     "city", "state", "postcode", "telephone_number", "facsimile_number",
     "get_latest_schedule_only"]
  | "fees" =>
    ["program_code", "schedule_code", "dispensing_fee_ready_prepared",
     "dispensing_fee_dangerous_drug", "dispensing_fee_extra",
     "dispensing_fee_extemporaneous", "safety_net_recording_fee_ep",
     "safety_net_recording_fee_rp", "dispensing_fee_water_added",
     "container_fee_injectable", "container_fee_other",
     "gnrl_copay_discount_general", "gnrl_copay_discount_hospital",
     "con_copay_discount_general", "con_copay_discount_hospital",
     "efc_diluent_fee", "efc_preparation_fee", "efc_distribution_fee",
     "acss_imdq60_payment", "acss_payment"]
  | "restrictions" =>
    ["res_code", "schedule_code", "treatment_phase", "authority_method",
     "treatment_of_code", "restriction_number", "li_html_text",
     "schedule_html_text", "note_indicator", "caution_indicator",
     "assessment_type_code", "criteria_relationship",
     "variation_rule_applied", "first_listing_date",
     "written_authority_required"]
  | "item-restriction-relationships" =>
    ["res_code", "pbs_code", "benefit_type_code", "restriction_indicator",
     "schedule_code", "res_position"]
  | "restriction-prescribing-text-relationships" =>
    ["schedule_code", "res_code", "prescribing_text_id", "pt_position"]
  | "prescribing-texts" =>
    ["schedule_code", "prescribing_txt_id", "prescribing_type",
     "prescribing_txt", "prscrbg_txt_html", "complex_authority_rqrd_ind",
     "assessment_type_code", "apply_to_increase_mq_flag",
     "apply_to_increase_nr_flag"]
  | "prescribers" =>
    ["pbs_code", "prescriber_code", "schedule_code", "prescriber_type"]
  | "item-atc-relationships" =>
    ["atc_code", "schedule_code", "pbs_code", "atc_priority_pct"]
  | "atc-codes" =>
    ["atc_code", "atc_description", "atc_level", "atc_parent_code",
     "schedule_code"]
  | "amt-items" =>
    ["pbs_concept_id", "concept_type_code", "schedule_code", "amt_code",
     "li_item_id", "preferred_term", "exempt_ind", "non_amt_code",
     "pbs_preferred_term"]
  | "copayments" =>
    ["schedule_code", "general", "concessional", "safety_net_general",
     "safety_net_concessional", "safety_net_card_issue",
     "increased_discount_limit", "safety_net_ctg_contribution",
     "get_latest_schedule_only"]
  | "item-pricing-events" =>
    ["schedule_code", "li_item_id", "percentage_applied", "event_type_code"]
  | "programs" =>
    ["program_code", "schedule_code", "program_title"]
  | "program-dispensing-rules" =>
    ["program_code", "dispensing_rule_mnem", "default_indicator",
     "schedule_code"]
  | "dispensing-rules" =>
    ["schedule_code", "dispensing_rule_mnem", "dispensing_rule_reference",
     "dispensing_rule_title", "community_pharmacy_indicator"]
  | "summary-of-changes" =>
    ["schedule_code", "source_schedule_code", "target_effective_date",
     "source_effective_date", "target_publication_status",
     "source_publication_status", "target_revision_number",
     "source_revision_number", "changed_table", "change_type",
     "sql_statement", "change_detail", "previous_detail", "table_keys",
     "deleted_ind", "new_ind", "modified_ind", "changed_endpoint",
     "get_latest_schedule_only"]
  | _ => []

/-- `pickAllowedParams` (src/index.ts:123-391): with no input, return the
empty map; otherwise keep exactly the entries whose key is in the union of
the endpoint allow-list and the generic query controls.  The JavaScript
`Set` union is modelled by list append (`contains` on the appended list
coincides with membership in the union); copying the surviving entries into
a fresh object in iteration order is list filtering. -/
def pickAllowedParams (endpoint : String)
    (input : Option (List (String × String))) : List (String × String) :=
  match input with
  | none => []
  | some entries =>
    let allowed := perEndpointParams endpoint ++ commonParams
    entries.filter (fun kv => allowed.contains kv.1)

/-! ## The search-drugs tool handler (src/index.ts:421-521) -/

/-- The character class of the sanitization regex `[<>\"']` in the
`search-drugs` handler (src/index.ts:451); the two `Char.ofNat` values are
the double-quote (34) and single-quote (39) characters. -/
def isStrippedChar (c : Char) : Bool :=
  c = '<' || c = '>' || c = Char.ofNat 34 || c = Char.ofNat 39

/-- `query.trim().replace(/[<>\"']/g, '').substring(0, 200)`
(src/index.ts:451): trim, remove every occurrence of the four characters,
then truncate to the first 200 characters. -/
def sanitizeQuery (query : String) : String :=
  (((jsTrim query).toList.filter (fun c => !(isStrippedChar c))).asString).take 200

/-- The `openfda` sub-object of an FDA drug label, with the fields the
handler reads. -/
structure OpenFda where
  brand_name : List String
  generic_name : List String
  manufacturer_name : List String
  route : List String
  dosage_form : List String

/-- An FDA drug label as consumed by the `search-drugs` handler. -/
structure DrugLabel where
  openfda : OpenFda
  purpose : List String
  effective_time : String

/-- A tool handler result: one text content block plus the `isError` flag
(absent in the source means `false`). -/
structure ToolResult where
  text : String
  isError : Bool
deriving DecidableEq

/-- JavaScript `xs?.[0] || dflt`: the first element when present and
non-empty (the empty string is falsy), else the default. -/
def firstOr (xs : List String) (dflt : String) : String :=
  match xs.head? with
  | some s => if s = "" then dflt else s
  | none => dflt

/-- One numbered entry of the `search-drugs` result text
(src/index.ts:486-498). -/
def formatDrugEntry (index : Nat) (drug : DrugLabel) : String :=
  let base :=
    toString (index + 1) ++ ". **" ++ firstOr drug.openfda.brand_name "Unknown Brand" ++ "**\n"
      ++ "   Generic Name: " ++ firstOr drug.openfda.generic_name "Not specified" ++ "\n"
      ++ "   Manufacturer: " ++ firstOr drug.openfda.manufacturer_name "Not specified" ++ "\n"
      ++ "   Route: " ++ firstOr drug.openfda.route "Not specified" ++ "\n"
      ++ "   Dosage Form: " ++ firstOr drug.openfda.dosage_form "Not specified" ++ "\n"
  let withPurpose :=
    match drug.purpose.head? with
    | some p =>
      base ++ "   Purpose: " ++ p.take 200 ++ (if 200 < p.length then "..." else "") ++ "\n"
    | none => base
  withPurpose ++ "   Last Updated: " ++ drug.effective_time ++ "\n\n"

/-- The result text for a non-empty drug list (src/index.ts:483-498). -/
def formatDrugs (sanitizedQuery : String) (drugs : List DrugLabel) : String :=
  let header :=
    "**Drug Search Results for \"" ++ sanitizedQuery ++ "\"**\n\n"
      ++ "Found " ++ toString drugs.length ++ " drug(s)\n\n"
  header ++ String.join ((drugs.enum).map (fun di => formatDrugEntry di.1 di.2))

/-- The observable outcome of one `search-drugs` handler invocation:
the tool result, the query string passed to the upstream `searchDrugs`
function (`none` when no upstream call was made), and the value of the
global `__lastDrugSearchCall` timestamp afterwards. -/
structure SearchDrugsOutcome where
  result : ToolResult
  upstreamQuery : Option String
  lastCall : Nat
deriving DecidableEq

/-- The `search-drugs` handler (src/index.ts:440-520).  `searchDrugsFn` is
the upstream `searchDrugs` call, which may throw (`Except.error`); the
`catch` block turns a throw into an `isError` result.  `lastCall` is the
prior value of `__lastDrugSearchCall` (0 when unset) and `now` is
`Date.now()`; the rate-limit comparison `now - lastCall < 1000` agrees with
the source for the monotone clocks of interest. -/
def searchDrugsHandler (searchDrugsFn : String → Nat → Except String (List DrugLabel))
    (lastCall now : Nat) (query : String) (limit : Nat) : SearchDrugsOutcome :=
  if query = "" then
    ⟨⟨"Error: Query parameter is required and must be a non-empty string.", true⟩,
      none, lastCall⟩
  else
    let sanitized := sanitizeQuery query
    if sanitized = "" then
      ⟨⟨"Error: Query contains no valid characters after sanitization.", true⟩,
        none, lastCall⟩
    else if now - lastCall < 1000 then
      ⟨⟨"Error: Rate limit exceeded. Please wait before making another request.", true⟩,
        none, lastCall⟩
    else
      match searchDrugsFn sanitized limit with
      | Except.error msg =>
        ⟨⟨"Error searching drugs: " ++ (if msg = "" then "Unknown error" else msg), true⟩,
          some sanitized, now⟩
      | Except.ok [] =>
        ⟨⟨"No drugs found matching \"" ++ sanitized ++ "\". Try a different search term.",
            false⟩,
          some sanitized, now⟩
      | Except.ok drugs =>
        ⟨⟨formatDrugs sanitized drugs, false⟩, some sanitized, now⟩

/-! ## JSON values and request bodies -/

/-- A JSON value, as produced by a successful `JSON.parse`. -/
inductive Json where
  | null : Json
  | bool (b : Bool) : Json
  | num (n : Int) : Json
  | str (s : String) : Json
  | arr (elems : List Json) : Json
  | obj (fields : List (String × Json)) : Json

/-- First field of a JSON object with the given name. -/
def lookupField : List (String × Json) → String → Option Json
  | [], _ => none
  | (k, v) :: rest, name => if k = name then some v else lookupField rest name

/-- Modelled from the spec: the SDK predicate `isInitializeRequest` (imported
from `@modelcontextprotocol/sdk/types.js`, not part of the sources here) —
"Initialization is distinguished ... by the message being recognized as an
initialize request type": the body is an object whose `method` field is the
string `"initialize"`. -/
def isInitReq : Json → Bool
  | Json.obj fields =>
    match lookupField fields "method" with
    | some (Json.str m) => m = "initialize"
    | _ => false
  | _ => false

/-- The outcome of `JSON.parse` on a POST body: either the parse threw
(`malformed`) or it produced a JSON value. -/
inductive RawBody where
  | malformed : RawBody
  | parsed (j : Json) : RawBody

/-- Whether the body failed to parse (the `catch` around `JSON.parse`,
src/index.ts:1677-1691). -/
def isMalformed : RawBody → Bool
  | RawBody.malformed => true
  | RawBody.parsed _ => false

/-- Whether the parsed body is an initialize request. -/
def isInitBody : RawBody → Bool
  | RawBody.parsed j => isInitReq j
  | RawBody.malformed => false

/-! ## The HTTP request handler (`main`, src/index.ts:1607-1896) -/

/-- Server configuration derived from the environment at startup. -/
structure ServerConfig where
  /-- `NODE_ENV === 'production'` (strict CORS origin checking). -/
  productionMode : Bool
  /-- `ALLOWED_ORIGINS` split on commas, or the localhost defaults
  (src/index.ts:31-36). -/
  corsAllowedOrigins : List String
  /-- `enableDnsRebindingProtection` (src/index.ts:1592). -/
  dnsRebindingProtection : Bool
  /-- The origin list of the DNS-rebinding check: host/port origins,
  localhost defaults and `ALLOWED_ORIGINS` (src/index.ts:1629-1635). -/
  rebindAllowedOrigins : List String

/-- An inbound HTTP request, restricted to the data the handler reads. -/
structure HttpRequest where
  method : String
  path : String
  /-- The `origin` header. -/
  origin : Option String
  /-- The raw `accept` header (empty string when absent, as
  `String(req.headers['accept'] || '')`). -/
  accept : String
  /-- The outcome of `JSON.parse` on the request body (read only for POST). -/
  body : RawBody
  /-- The `mcp-protocol-version` header. -/
  protocolVersion : Option String
  /-- The `mcp-session-id` header. -/
  sessionId : Option String

/-- What the handler does with a request: answer directly with a status code
and (for JSON-RPC error envelopes) an error code and optional
`data.supported` list, delegate to an existing session transport
(`transport.handleRequest`), or run the new-session initialization flow
(`buildServer` + `server.connect` + `transport.handleRequest`).  Tool
handlers can only run under `delegated` or `initialized`. -/
inductive HandlerOutcome where
  | response (status : Nat) (rpcCode : Option Int) (supported : Option (List String))
  | delegated (sid : String)
  | initialized
deriving DecidableEq

/-- `setCorsHeaders` (src/index.ts:29-74): `false` (a 403 was sent) exactly
when an origin is present, the server is in production mode, and the origin
is not in the allowed list. -/
def corsOk (cfg : ServerConfig) (req : HttpRequest) : Bool :=
  match req.origin with
  | some o => if cfg.productionMode then cfg.corsAllowedOrigins.contains o else true
  | none => true

/-- The DNS-rebinding rejection condition (src/index.ts:1627-1650): enabled,
origin present, and origin not in the allowed list. -/
def dnsReject (cfg : ServerConfig) (req : HttpRequest) : Bool :=
  cfg.dnsRebindingProtection &&
    (match req.origin with
     | some o => !(cfg.rebindAllowedOrigins.contains o)
     | none => false)

/-- The Accept-header condition for POST (src/index.ts:1652-1654): the
lowercased header must contain both `application/json` and
`text/event-stream`. -/
def acceptOk (accept : String) : Bool :=
  containsSub (jsToLower accept) "application/json" &&
    containsSub (jsToLower accept) "text/event-stream"

/-- The supported protocol versions (src/index.ts:1696). -/
def supportedVersions : List String := ["2025-06-18", "2025-03-26"]

/-- `protocolVersion || '2025-03-26'` (src/index.ts:1724): the negotiated
version defaults to the baseline when the header is absent. -/
def negotiatedVersion (protocolVersion : Option String) : String :=
  protocolVersion.getD "2025-03-26"

/-- The session-routing tail of the `/mcp` block (src/index.ts:1740-1819):
an id bound in the transports table is delegated to its transport; a POST
without an id whose body is an initialize request starts the initialization
flow; everything else is a 400 `Bad Request: No valid session ID provided`
JSON-RPC error (code -32000). -/
def routeSession (sessions : List String) (req : HttpRequest) : HandlerOutcome :=
  match req.sessionId with
  | some sid =>
    if sessions.contains sid then HandlerOutcome.delegated sid
    else HandlerOutcome.response 400 (some (-32000)) none
  | none =>
    if req.method = "POST" && isInitBody req.body then HandlerOutcome.initialized
    else HandlerOutcome.response 400 (some (-32000)) none

/-- The `/mcp` block (src/index.ts:1618-1820), in source order: OPTIONS
preflight, DNS-rebinding check, Accept check (POST), body parse (POST),
protocol-version check, then session routing.  Every branch responds, so
control never falls past this block for a `/mcp` path. -/
def handleMcp (cfg : ServerConfig) (sessions : List String)
    (req : HttpRequest) : HandlerOutcome :=
  if req.method = "OPTIONS" then HandlerOutcome.response 200 none none
  else if dnsReject cfg req then HandlerOutcome.response 403 (some (-32000)) none
  else if req.method = "POST" && !(acceptOk req.accept) then
    HandlerOutcome.response 406 (some (-32000)) none
  else if req.method = "POST" && isMalformed req.body then
    HandlerOutcome.response 400 (some (-32700)) none
  else
    match req.protocolVersion with
    | some v =>
      if supportedVersions.contains v then routeSession sessions req
      else HandlerOutcome.response 400 (some (-32602)) (some supportedVersions)
    | none => routeSession sessions req

/-- The dedicated DELETE /mcp handler (src/index.ts:1823-1877).  It is dead
code — the `/mcp` block above it returns on every path — but is embedded for
fidelity: no id is a 400, a live id is closed with a 200 status payload, an
unknown id is a 404 `Session not found` error. -/
def deadDeleteBlock (sessions : List String) (req : HttpRequest) : HandlerOutcome :=
  match req.sessionId with
  | none => HandlerOutcome.response 400 (some (-32000)) none
  | some sid =>
    if sessions.contains sid then HandlerOutcome.response 200 none none
    else HandlerOutcome.response 404 (some (-32000)) none

/-- The whole request listener (src/index.ts:1607-1896): CORS gate, the
`/mcp` block, the (unreachable) dedicated DELETE handler, the `/health`
check, and the final 404.  `sessions` is the key set of the `transports`
table.  The listener is a total function — the surrounding `try/catch`
(500) is never needed on these paths. -/
def handleRequest (cfg : ServerConfig) (sessions : List String)
    (req : HttpRequest) : HandlerOutcome :=
  if !(corsOk cfg req) then HandlerOutcome.response 403 (some (-32000)) none
  else if req.path = "/mcp" then handleMcp cfg sessions req
  else if req.method = "DELETE" && req.path = "/mcp" then deadDeleteBlock sessions req
  else if req.method = "GET" && req.path = "/health" then HandlerOutcome.response 200 none none
  else HandlerOutcome.response 404 none none

/-! ## The session tables (src/index.ts:1602-1604) -/

/-- The key sets of the two per-session tables:
`transports: { [sessionId]: StreamableHTTPServerTransport }` and
`servers: { [sessionId]: McpServer }`.  The values (live transport and
server objects) are irrelevant to the key-set invariant. -/
structure SessionTables where
  transports : List String
  servers : List String
deriving DecidableEq

/-- The `onsessioninitialized` callback (src/index.ts:1764-1773):
`transports[sessionId] = transport; servers[sessionId] = server`. -/
def storeSession (sid : String) (st : SessionTables) : SessionTables :=
  ⟨st.transports.insert sid, st.servers.insert sid⟩

/-- The `transport.onclose` callback (src/index.ts:1779-1788): when the
transport has a session id, delete both table entries; otherwise nothing. -/
def oncloseFire (sessionId : Option String) (st : SessionTables) : SessionTables :=
  match sessionId with
  | some sid => ⟨st.transports.erase sid, st.servers.erase sid⟩
  | none => st

/-- The dedicated DELETE /mcp termination path (src/index.ts:1840-1848):
for a known id, `server.close()` and `transport.close()` — modelled from the
spec: the transport close signals the registered close callback
(`onclose`), which deletes both entries — followed by explicit deletion of
both entries.  For an unknown id, no table change. -/
def explicitDelete (sid : String) (st : SessionTables) : SessionTables :=
  if st.transports.contains sid then
    let st1 := oncloseFire (some sid) st
    ⟨st1.transports.erase sid, st1.servers.erase sid⟩
  else st

/-- One step of graceful shutdown (src/index.ts:1926-1941):
`transport.close()` — which (modelled from the spec, as above) fires
`onclose` deleting both entries — then `delete transports[sessionId]`. -/
def shutdownClose (sid : String) (st : SessionTables) : SessionTables :=
  let st1 := oncloseFire (some sid) st
  ⟨st1.transports.erase sid, st1.servers⟩

/-- `gracefulShutdown` (src/index.ts:1916-1943): close every transport in a
snapshot of the table. -/
def shutdownAll (st : SessionTables) : SessionTables :=
  st.transports.foldl (fun acc sid => shutdownClose sid acc) st

/-- The session-table operations the server performs. -/
inductive SessionOp : SessionTables → SessionTables → Prop where
  | sessionInit (sid : String) (st : SessionTables) : SessionOp st (storeSession sid st)
  | transportClosed (sessionId : Option String) (st : SessionTables) :
      SessionOp st (oncloseFire sessionId st)
  | deleteRequested (sid : String) (st : SessionTables) : SessionOp st (explicitDelete sid st)
  | shutdown (st : SessionTables) : SessionOp st (shutdownAll st)

/-- At startup both tables are empty. -/
def initialTables : SessionTables := ⟨[], []⟩

/-- The states the session tables can reach from startup. -/
def ReachableTables : SessionTables → Prop :=
  Relation.ReflTransGen SessionOp initialTables

/-! ## The PBS upstream gateway

The implementation of `pbsGet` / `pbsGetCached` is imported from
`./utils.js` but is not among the source files here (the `utils.ts`
present contains only the FDA/WHO/RxNorm/PubMed/Scholar helpers), so the
gateway is modelled from the specification (§4.1 Upstream Gateway, §3
Gateway Cache Entry / Gateway Throttle State, and the documented
configuration `PBS_MIN_INTERVAL_MS` / `PBS_CACHE_TTL_MS`). -/

/-- Modelled from the spec: the gateway configuration —
`PBS_MIN_INTERVAL_MS` (default 20000) and `PBS_CACHE_TTL_MS`
(default 300000). -/
structure GatewayConfig where
  minIntervalMs : Nat
  cacheTtlMs : Nat
deriving DecidableEq

/-- Modelled from the spec: a Gateway Cache Entry — cache key, insertion
timestamp, cached payload. -/
structure CacheEntry where
  key : String
  insertedAt : Nat
  payload : String
deriving DecidableEq

/-- Modelled from the spec: the process-wide gateway state — the timestamp
of the last upstream send (`none` = never sent) and the cache store. -/
structure GatewayState where
  lastSentAt : Option Nat
  cache : List CacheEntry
deriving DecidableEq

/-- Modelled from the spec: an entry is valid (servable) only while
`now - insertion_timestamp < TTL`; timestamp arithmetic is in `Int`, as
JavaScript `Date.now()` differences are. -/
def entryValid (ttl now insertedAt : Nat) : Bool :=
  (now : Int) - (insertedAt : Int) < (ttl : Int)

/-- Modelled from the spec: cache lookup — the payload of a valid entry for
the key, if any. -/
def cacheLookup (ttl now : Nat) (cache : List CacheEntry) (key : String) : Option String :=
  (cache.find? (fun e => e.key == key && entryValid ttl now e.insertedAt)).map
    (fun e => e.payload)

/-- Modelled from the spec: the throttle — if less than the minimum
interval has elapsed since the last send, the caller is suspended until it
elapses, so the actual send happens at `max now (last + minInterval)`;
a first-ever send happens immediately. -/
def nextSendTime (cfg : GatewayConfig) (lastSentAt : Option Nat) (now : Nat) : Nat :=
  match lastSentAt with
  | none => now
  | some l => max now (l + cfg.minIntervalMs)

/-- The observable outcome of one gateway fetch: the returned payload and
the timestamp of the upstream send (`none` when the call was served from
cache and no send occurred). -/
structure FetchOutcome where
  payload : String
  sentAt : Option Nat
deriving DecidableEq

/-- Modelled from the spec: one gateway `fetch(endpoint, params)` — the
cache key stands for the pair.  A valid cache entry is returned immediately
with no upstream call and no throttle wait (state unchanged); otherwise the
caller goes through the atomic check-and-set of the throttle, sends at
`nextSendTime`, updates `lastSentAt`, and stores the result with a fresh
timestamp. -/
def gatewayFetch (cfg : GatewayConfig) (upstream : String → String)
    (st : GatewayState) (now : Nat) (key : String) : GatewayState × FetchOutcome :=
  match cacheLookup cfg.cacheTtlMs now st.cache key with
  | some payload => (st, ⟨payload, none⟩)
  | none =>
    let sendAt := nextSendTime cfg st.lastSentAt now
    let payload := upstream key
    (⟨some sendAt, ⟨key, sendAt, payload⟩ :: st.cache⟩, ⟨payload, some sendAt⟩)

/-- Modelled from the spec: a batch of concurrent callers serialized by the
throttle's critical section — each `(now, key)` pair is one caller's arrival
time and cache key, processed against the shared gateway state in
serialization order. -/
def runCalls (cfg : GatewayConfig) (upstream : String → String) :
    GatewayState → List (Nat × String) → GatewayState × List FetchOutcome
  | st, [] => (st, [])
  | st, c :: rest =>
    let step := gatewayFetch cfg upstream st c.1 c.2
    let next := runCalls cfg upstream step.1 rest
    (next.1, step.2 :: next.2)

/-! ## Shared routing lemmas -/

/-- For a request that passes CORS, a `/mcp` path is handled entirely by
the `/mcp` block. -/
lemma handleRequest_mcp_eq (cfg : ServerConfig) (sessions : List String)
    (req : HttpRequest) (hc : corsOk cfg req = true) (hp : req.path = "/mcp") :
    handleRequest cfg sessions req = handleMcp cfg sessions req := by
  simp [handleRequest, hc, hp]

/-- Past the OPTIONS, DNS-rebinding, Accept and body-parse gates, the
`/mcp` block is the protocol-version check followed by session routing. -/
lemma handleMcp_past_gates (cfg : ServerConfig) (sessions : List String)
    (req : HttpRequest) (ho : req.method ≠ "OPTIONS")
    (hd : dnsReject cfg req = false)
    (hpost : req.method = "POST" → acceptOk req.accept = true ∧ req.body ≠ RawBody.malformed) :
    handleMcp cfg sessions req =
      match req.protocolVersion with
      | some v =>
        if supportedVersions.contains v then routeSession sessions req
        else HandlerOutcome.response 400 (some (-32602)) (some supportedVersions)
      | none => routeSession sessions req := by
  by_cases hm : req.method = "POST"
  · obtain ⟨ha, hb⟩ := hpost hm
    have hb' : isMalformed req.body = false := by
      cases hbody : req.body with
      | malformed => exact absurd hbody hb
      | parsed j => rfl
    simp [handleMcp, if_neg ho, hd, hm, ha, hb']
  · simp [handleMcp, if_neg ho, hd, hm]

/-- With a supported (or omitted) protocol version as well, the `/mcp`
block reduces to session routing. -/
lemma handleRequest_version_ok (cfg : ServerConfig) (sessions : List String)
    (req : HttpRequest) (hc : corsOk cfg req = true) (hp : req.path = "/mcp")
    (ho : req.method ≠ "OPTIONS") (hd : dnsReject cfg req = false)
    (hpost : req.method = "POST" → acceptOk req.accept = true ∧ req.body ≠ RawBody.malformed)
    (hv : req.protocolVersion = none
        ∨ ∃ v, req.protocolVersion = some v ∧ v ∈ supportedVersions) :
    handleRequest cfg sessions req = routeSession sessions req := by
  rw [handleRequest_mcp_eq cfg sessions req hc hp,
    handleMcp_past_gates cfg sessions req ho hd hpost]
  rcases hv with hnone | ⟨v, hv, hmem⟩
  · rw [hnone]
  · rw [hv]
    simp [hmem]

/-! ## Claim C7: the PBS parameter allow-list -/

/-- Claim C7: for every endpoint and flat string-parameter map handed to
the PBS gateway path, an entry survives `pickAllowedParams` exactly when it
was in the input and its key is in the endpoint allow-list or among the
generic query controls — so every unlisted parameter is silently dropped
and every allowed parameter passes through with its value unchanged. -/
theorem pickAllowedParams_allowlist (endpoint : String)
    (entries : List (String × String)) (k v : String) :
    (k, v) ∈ pickAllowedParams endpoint (some entries) ↔
      ((k, v) ∈ entries ∧ (k ∈ perEndpointParams endpoint ∨ k ∈ commonParams)) := by
  simp [pickAllowedParams, List.mem_filter, List.mem_append]

/-! ## Claim C10: search-drugs sanitization -/

/-- Claim C10: every query string actually passed to the upstream FDA
search function by the `search-drugs` handler is the input trimmed, with
every occurrence of the characters less-than, greater-than, double-quote
and single-quote removed, truncated to at most 200 characters
(`sanitizeQuery`); and when that sanitized string is empty the handler
returns an error-flagged result without any upstream call. -/
theorem searchDrugs_query_sanitized
    (fn : String → Nat → Except String (List DrugLabel)) (lastCall now : Nat)
    (query : String) (limit : Nat) :
    (∀ q, (searchDrugsHandler fn lastCall now query limit).upstreamQuery = some q →
        q = sanitizeQuery query)
    ∧ (sanitizeQuery query = "" →
        (searchDrugsHandler fn lastCall now query limit).upstreamQuery = none
        ∧ (searchDrugsHandler fn lastCall now query limit).result.isError = true) := by
  by_cases h0 : query = ""
  · simp [searchDrugsHandler, h0]
  · by_cases hs : sanitizeQuery query = ""
    · simp [searchDrugsHandler, h0, hs]
    · by_cases hr : now - lastCall < 1000
      · simp [searchDrugsHandler, h0, hs, hr]
      · rcases hfn : fn (sanitizeQuery query) limit with msg | drugs
        · simp [searchDrugsHandler, h0, hs, hr, hfn]
        · cases drugs with
          | nil => simp [searchDrugsHandler, h0, hs, hr, hfn]
          | cons d ds => simp [searchDrugsHandler, h0, hs, hr, hfn]

set_option maxRecDepth 4000 in
/-- Witness for C10 at a concrete input: the handler passes exactly the
sanitized query to the upstream function. -/
theorem searchDrugs_query_sanitized_witness :
    "abc" = sanitizeQuery " ab<c " :=
  (searchDrugs_query_sanitized (fun _ _ => Except.ok []) 0 1000 " ab<c " 5).1
    "abc" (by decide)

/-! ## Claim C9: the two session tables stay in lockstep -/

/-- Session initialization keeps the tables equal and duplicate-free. -/
lemma storeSession_inv {st : SessionTables} (sid : String)
    (heq : st.transports = st.servers) (hnd : st.transports.Nodup) :
    (storeSession sid st).transports = (storeSession sid st).servers
    ∧ (storeSession sid st).transports.Nodup :=
  ⟨by simp [storeSession, heq], hnd.insert⟩

/-- One graceful-shutdown step keeps the tables equal and duplicate-free:
after `onclose` has deleted the entry from both tables, the extra
`delete transports[sessionId]` is a no-op. -/
lemma shutdownClose_inv (sid : String) {st : SessionTables}
    (heq : st.transports = st.servers) (hnd : st.transports.Nodup) :
    (shutdownClose sid st).transports = (shutdownClose sid st).servers
    ∧ (shutdownClose sid st).transports.Nodup := by
  have h1 : sid ∉ st.transports.erase sid := hnd.not_mem_erase
  constructor
  · show (st.transports.erase sid).erase sid = st.servers.erase sid
    rw [List.erase_of_not_mem h1, heq]
  · show ((st.transports.erase sid).erase sid).Nodup
    rw [List.erase_of_not_mem h1]
    exact hnd.erase sid

/-- Folding shutdown steps over any id list preserves the invariant. -/
lemma foldl_shutdownClose_inv (sids : List String) :
    ∀ st : SessionTables, st.transports = st.servers → st.transports.Nodup →
      (sids.foldl (fun acc sid => shutdownClose sid acc) st).transports
        = (sids.foldl (fun acc sid => shutdownClose sid acc) st).servers
      ∧ (sids.foldl (fun acc sid => shutdownClose sid acc) st).transports.Nodup := by
  induction sids with
  | nil => exact fun st heq hnd => ⟨heq, hnd⟩
  | cons sid rest ih =>
    intro st heq hnd
    have h := shutdownClose_inv sid heq hnd
    exact ih _ h.1 h.2

/-- Every session-table operation preserves the invariant. -/
lemma tables_inv_step {st st' : SessionTables} (h : SessionOp st st')
    (heq : st.transports = st.servers) (hnd : st.transports.Nodup) :
    st'.transports = st'.servers ∧ st'.transports.Nodup := by
  cases h with
  | sessionInit sid _ => exact storeSession_inv sid heq hnd
  | transportClosed sessionId _ =>
    cases sessionId with
    | none => exact ⟨heq, hnd⟩
    | some sid => exact ⟨by simp [oncloseFire, heq], hnd.erase sid⟩
  | deleteRequested sid _ =>
    unfold explicitDelete
    split
    · exact ⟨by simp [oncloseFire, heq], ((hnd.erase sid).erase sid)⟩
    · exact ⟨heq, hnd⟩
  | shutdown _ => exact foldl_shutdownClose_inv st.transports st heq hnd

/-- Claim C9: in every state the session bookkeeping can reach — via
session initialization, transport close callbacks, explicit DELETE
termination and graceful shutdown — the key set of the `transports` table
equals the key set of the `servers` table: no session ever has a transport
without its per-session server instance or vice versa. -/
theorem session_tables_lockstep (st : SessionTables) (h : ReachableTables st)
    (s : String) : s ∈ st.transports ↔ s ∈ st.servers := by
  have key : st.transports = st.servers ∧ st.transports.Nodup := by
    unfold ReachableTables at h
    induction h with
    | refl => exact ⟨rfl, List.nodup_nil⟩
    | tail hsteps hstep ih => exact tables_inv_step hstep ih.1 ih.2
  rw [key.1]

/-- Witness for C9 at a concrete reachable state: after initializing one
session, the two tables agree on its id. -/
theorem session_tables_lockstep_witness :
    ("abc" ∈ (storeSession "abc" initialTables).transports
      ↔ "abc" ∈ (storeSession "abc" initialTables).servers) :=
  session_tables_lockstep _
    (Relation.ReflTransGen.single (SessionOp.sessionInit "abc" initialTables)) "abc"

/-! ## Claim C8: Accept-header rejection for POST -/

/-- Claim C8: every POST to `/mcp` (past the CORS and DNS-rebinding gates)
whose Accept header does not include both `application/json` and
`text/event-stream` is rejected with HTTP 406 and a structured JSON-RPC
error.  The conclusion holds for every request body and every session
table, so the rejection precedes body parsing and all session work. -/
theorem post_accept_rejected (cfg : ServerConfig) (sessions : List String)
    (req : HttpRequest) (hc : corsOk cfg req = true) (hp : req.path = "/mcp")
    (hm : req.method = "POST") (hd : dnsReject cfg req = false)
    (ha : acceptOk req.accept = false) :
    handleRequest cfg sessions req = HandlerOutcome.response 406 (some (-32000)) none := by
  rw [handleRequest_mcp_eq cfg sessions req hc hp]
  have ho : ¬(req.method = "OPTIONS") := by rw [hm]; decide
  simp [handleMcp, if_neg ho, hd, hm, ha]

/-- Witness for C8: a POST declaring only `application/json` is answered
with 406 before any session lookup. -/
theorem post_accept_rejected_witness :
    handleRequest ⟨false, [], false, []⟩ []
        ⟨"POST", "/mcp", none, "application/json", RawBody.malformed, none, none⟩
      = HandlerOutcome.response 406 (some (-32000)) none :=
  post_accept_rejected ⟨false, [], false, []⟩ []
    ⟨"POST", "/mcp", none, "application/json", RawBody.malformed, none, none⟩
    (by decide) (by decide) (by decide) (by decide) (by decide)

/-! ## Claim C4: protocol version negotiation -/

/-- Claim C4: for every `/mcp` request past the earlier gates, an
`mcp-protocol-version` header outside the supported set
`{2025-06-18, 2025-03-26}` is answered with HTTP 400 and a structured
JSON-RPC error (code -32602) whose data lists the supported versions —
uniformly in the session table, i.e. before any session lookup or creation
— while a supported or omitted header passes the version check straight
into session routing, omission defaulting to the baseline 2025-03-26. -/
theorem protocol_version_negotiation (cfg : ServerConfig) (sessions : List String)
    (req : HttpRequest) (hc : corsOk cfg req = true) (hp : req.path = "/mcp")
    (ho : req.method ≠ "OPTIONS") (hd : dnsReject cfg req = false)
    (hpost : req.method = "POST" → acceptOk req.accept = true ∧ req.body ≠ RawBody.malformed) :
    supportedVersions = ["2025-06-18", "2025-03-26"]
    ∧ (∀ v, req.protocolVersion = some v → v ∉ supportedVersions →
        handleRequest cfg sessions req
          = HandlerOutcome.response 400 (some (-32602)) (some supportedVersions))
    ∧ ((req.protocolVersion = none
          ∨ ∃ v, req.protocolVersion = some v ∧ v ∈ supportedVersions) →
        handleRequest cfg sessions req = routeSession sessions req)
    ∧ negotiatedVersion none = "2025-03-26" := by
  have hmain := (handleRequest_mcp_eq cfg sessions req hc hp).trans
    (handleMcp_past_gates cfg sessions req ho hd hpost)
  refine ⟨rfl, ?_, ?_, rfl⟩
  · intro v hv hmem
    rw [hmain, hv]
    simp [hmem]
  · exact handleRequest_version_ok cfg sessions req hc hp ho hd hpost

/-- Witness for C4: a GET declaring version `9999-99-99` is rejected with
the supported-version list in the error data. -/
theorem protocol_version_negotiation_witness :
    handleRequest ⟨false, [], false, []⟩ []
        ⟨"GET", "/mcp", none, "", RawBody.malformed, some "9999-99-99", some "x"⟩
      = HandlerOutcome.response 400 (some (-32602)) (some supportedVersions) :=
  (protocol_version_negotiation ⟨false, [], false, []⟩ []
      ⟨"GET", "/mcp", none, "", RawBody.malformed, some "9999-99-99", some "x"⟩
      (by decide) (by decide) (by decide) (by decide)
      (fun h => absurd h (by decide))).2.1
    "9999-99-99" rfl (by decide)

/-! ## Claim C5: unknown-session rejection -/

/-- Claim C5: every non-initializing `/mcp` message (past the earlier
gates, with an acceptable protocol version) bearing a session identifier
not present in the live session table is rejected with a 400 JSON-RPC
protocol error — the outcome is a direct response, so no tool handler is
invoked — and likewise a POST with no session identifier whose body is not
an initialize request is rejected as a bad request. -/
theorem unknown_session_rejected (cfg : ServerConfig) (sessions : List String)
    (req : HttpRequest) (hc : corsOk cfg req = true) (hp : req.path = "/mcp")
    (ho : req.method ≠ "OPTIONS") (hd : dnsReject cfg req = false)
    (hpost : req.method = "POST" → acceptOk req.accept = true ∧ req.body ≠ RawBody.malformed)
    (hv : req.protocolVersion = none
        ∨ ∃ v, req.protocolVersion = some v ∧ v ∈ supportedVersions) :
    (∀ sid, req.sessionId = some sid → sid ∉ sessions →
        handleRequest cfg sessions req = HandlerOutcome.response 400 (some (-32000)) none)
    ∧ (req.sessionId = none → req.method = "POST" → isInitBody req.body = false →
        handleRequest cfg sessions req = HandlerOutcome.response 400 (some (-32000)) none) := by
  have hroute := handleRequest_version_ok cfg sessions req hc hp ho hd hpost hv
  constructor
  · intro sid hsid hmem
    rw [hroute]
    unfold routeSession
    rw [hsid]
    simp [hmem]
  · intro hnone hpostm hinit
    rw [hroute]
    unfold routeSession
    rw [hnone]
    simp [hpostm, hinit]

/-- Witness for C5: a GET bearing an unknown session id against an empty
session table is rejected with a 400 protocol error. -/
theorem unknown_session_rejected_witness :
    handleRequest ⟨false, [], false, []⟩ []
        ⟨"GET", "/mcp", none, "", RawBody.malformed, none, some "ghost"⟩
      = HandlerOutcome.response 400 (some (-32000)) none :=
  (unknown_session_rejected ⟨false, [], false, []⟩ []
      ⟨"GET", "/mcp", none, "", RawBody.malformed, none, some "ghost"⟩
      (by decide) (by decide) (by decide) (by decide)
      (fun h => absurd h (by decide)) (Or.inl rfl)).1
    "ghost" rfl (by decide)

/-! ## Claim C3: DELETE of an unknown or closed session -/

/-- Claim C3 counterexample: a DELETE on `/mcp` bearing a session id that
is unknown (for instance already closed — the session table is empty) is
answered with an HTTP 400 JSON-RPC error, not a 200-equivalent success, so
closing an unknown or already-closed session is not a successful no-op. -/
theorem delete_closed_session_not_noop :
    handleRequest ⟨false, [], false, []⟩ []
        ⟨"DELETE", "/mcp", none, "", RawBody.malformed, none, some "stale-session"⟩
      = HandlerOutcome.response 400 (some (-32000)) none
    ∧ handleRequest ⟨false, [], false, []⟩ []
        ⟨"DELETE", "/mcp", none, "", RawBody.malformed, none, some "stale-session"⟩
      ≠ HandlerOutcome.response 200 none none := by
  constructor <;> decide

/-- Claim C3 (amended): a DELETE on `/mcp` whose session identifier is
unknown or refers to an already-closed session is handled without crashing
(the listener is a total function producing a response), but it is rejected
with an HTTP 400 JSON-RPC error (code -32000), not answered with a
200-equivalent success: the `/mcp` block's generic session routing handles
every DELETE first, so the dedicated DELETE handler (which would answer
404) is unreachable.  A DELETE bearing a live session id is delegated to
that session's transport. -/
theorem delete_unknown_session_rejected (cfg : ServerConfig) (sessions : List String)
    (req : HttpRequest) (hc : corsOk cfg req = true) (hp : req.path = "/mcp")
    (hm : req.method = "DELETE") (hd : dnsReject cfg req = false)
    (hv : req.protocolVersion = none
        ∨ ∃ v, req.protocolVersion = some v ∧ v ∈ supportedVersions) :
    (∀ sid, req.sessionId = some sid → sid ∉ sessions →
        handleRequest cfg sessions req = HandlerOutcome.response 400 (some (-32000)) none)
    ∧ (∀ sid, req.sessionId = some sid → sid ∈ sessions →
        handleRequest cfg sessions req = HandlerOutcome.delegated sid) := by
  have ho : req.method ≠ "OPTIONS" := by rw [hm]; decide
  have hpost : req.method = "POST" → acceptOk req.accept = true ∧ req.body ≠ RawBody.malformed :=
    fun h => absurd (hm.symm.trans h) (by decide)
  have hroute := handleRequest_version_ok cfg sessions req hc hp ho hd hpost hv
  constructor
  · intro sid hsid hmem
    rw [hroute]
    unfold routeSession
    rw [hsid]
    simp [hmem]
  · intro sid hsid hmem
    rw [hroute]
    unfold routeSession
    rw [hsid]
    simp [hmem]

/-- Witness for the amended C3: with one live session, deleting an unknown
id is a 400 error and deleting the live id is delegated to its transport. -/
theorem delete_unknown_session_rejected_witness :
    handleRequest ⟨false, [], false, []⟩ ["live"]
        ⟨"DELETE", "/mcp", none, "", RawBody.malformed, none, some "ghost"⟩
      = HandlerOutcome.response 400 (some (-32000)) none :=
  (delete_unknown_session_rejected ⟨false, [], false, []⟩ ["live"]
      ⟨"DELETE", "/mcp", none, "", RawBody.malformed, none, some "ghost"⟩
      (by decide) (by decide) (by decide) (by decide) (Or.inl rfl)).1
    "ghost" rfl (by decide)

/-! ## Claim C6: tool execution errors versus protocol errors -/

/-- Claim C6: a POST whose body is not valid JSON is rejected
synchronously with a JSON-RPC parse-error envelope (code -32700, HTTP 400)
— a direct response, uniform in the session table, so it never reaches a
tool handler — while a tool handler whose upstream call throws returns a
normal tool result through the ordinary return path whose payload carries
the `isError` flag (here the `search-drugs` handler with a throwing
`searchDrugs`, which was reached: it received the sanitized query).  The
two error classes therefore have disjoint shapes. -/
theorem tool_error_vs_protocol_error (cfg : ServerConfig) (sessions : List String)
    (req : HttpRequest) (msg : String) (lastCall now : Nat) (query : String) (limit : Nat)
    (hc : corsOk cfg req = true) (hp : req.path = "/mcp") (hm : req.method = "POST")
    (hd : dnsReject cfg req = false) (ha : acceptOk req.accept = true)
    (hb : req.body = RawBody.malformed)
    (hq : query ≠ "") (hs : sanitizeQuery query ≠ "") (hr : ¬(now - lastCall < 1000)) :
    handleRequest cfg sessions req = HandlerOutcome.response 400 (some (-32700)) none
    ∧ (searchDrugsHandler (fun _ _ => Except.error msg) lastCall now query limit).result.isError
        = true
    ∧ (searchDrugsHandler (fun _ _ => Except.error msg) lastCall now query limit).upstreamQuery
        = some (sanitizeQuery query) := by
  refine ⟨?_, ?_, ?_⟩
  · rw [handleRequest_mcp_eq cfg sessions req hc hp]
    have ho : ¬(req.method = "OPTIONS") := by rw [hm]; decide
    simp [handleMcp, if_neg ho, hd, hm, ha, hb, isMalformed]
  · simp [searchDrugsHandler, hq, hs, hr]
  · simp [searchDrugsHandler, hq, hs, hr]

set_option maxRecDepth 4000 in
/-- Witness for C6: a malformed POST gets the -32700 envelope, and the
throwing `search-drugs` handler returns an error-flagged tool result. -/
theorem tool_error_vs_protocol_error_witness :
    handleRequest ⟨false, [], false, []⟩ []
        ⟨"POST", "/mcp", none, "application/json, text/event-stream",
          RawBody.malformed, none, none⟩
      = HandlerOutcome.response 400 (some (-32700)) none
    ∧ (searchDrugsHandler (fun _ _ => Except.error "upstream down") 0 2000 "aspirin" 2).result.isError
        = true :=
  have h := tool_error_vs_protocol_error ⟨false, [], false, []⟩ []
    ⟨"POST", "/mcp", none, "application/json, text/event-stream",
      RawBody.malformed, none, none⟩
    "upstream down" 0 2000 "aspirin" 2
    (by decide) (by decide) (by decide) (by decide) (by decide) rfl
    (by decide) (by decide) (by decide)
  ⟨h.1, h.2.1⟩

/-! ## Claim C1: global throttle spacing -/

/-- When no call hits the cache, every gateway call sends exactly once,
the send timestamps form a chain separated by at least the minimum
interval, and any prior throttle timestamp bounds all of them from below
by the interval. -/
lemma runCalls_throttle_aux (cfg : GatewayConfig) (upstream : String → String)
    (calls : List (Nat × String)) :
    ∀ st : GatewayState, (calls.map Prod.snd).Nodup →
      (∀ e ∈ st.cache, e.key ∉ calls.map Prod.snd) →
      (∀ o ∈ (runCalls cfg upstream st calls).2, o.sentAt.isSome = true)
      ∧ ((runCalls cfg upstream st calls).2.filterMap FetchOutcome.sentAt).length
          = calls.length
      ∧ List.Pairwise (fun a b : Nat => a + cfg.minIntervalMs ≤ b)
          ((runCalls cfg upstream st calls).2.filterMap FetchOutcome.sentAt)
      ∧ (∀ l, st.lastSentAt = some l →
          ∀ t ∈ (runCalls cfg upstream st calls).2.filterMap FetchOutcome.sentAt,
            l + cfg.minIntervalMs ≤ t) := by
  induction calls with
  | nil =>
    intro st _ _
    simp [runCalls]
  | cons c rest ih =>
    intro st hnd hcache
    obtain ⟨now, key⟩ := c
    have hmiss : cacheLookup cfg.cacheTtlMs now st.cache key = none := by
      unfold cacheLookup
      have hfind : st.cache.find?
          (fun e => e.key == key && entryValid cfg.cacheTtlMs now e.insertedAt) = none := by
        apply List.find?_eq_none.mpr
        intro e he
        have h2 := hcache e he
        simp only [List.map_cons, List.mem_cons, not_or] at h2
        simp [h2.1]
      rw [hfind]
      rfl
    have hstep : gatewayFetch cfg upstream st now key
        = (⟨some (nextSendTime cfg st.lastSentAt now),
            ⟨key, nextSendTime cfg st.lastSentAt now, upstream key⟩ :: st.cache⟩,
           ⟨upstream key, some (nextSendTime cfg st.lastSentAt now)⟩) := by
      unfold gatewayFetch
      rw [hmiss]
    have hrun : runCalls cfg upstream st ((now, key) :: rest)
        = ((runCalls cfg upstream
              ⟨some (nextSendTime cfg st.lastSentAt now),
               ⟨key, nextSendTime cfg st.lastSentAt now, upstream key⟩ :: st.cache⟩ rest).1,
           ⟨upstream key, some (nextSendTime cfg st.lastSentAt now)⟩ ::
             (runCalls cfg upstream
              ⟨some (nextSendTime cfg st.lastSentAt now),
               ⟨key, nextSendTime cfg st.lastSentAt now, upstream key⟩ :: st.cache⟩ rest).2) := by
      simp only [runCalls, hstep]
    simp only [List.map_cons] at hnd
    have hkeytail : key ∉ rest.map Prod.snd := (List.nodup_cons.mp hnd).1
    have hndtail : (rest.map Prod.snd).Nodup := (List.nodup_cons.mp hnd).2
    have hcachetail : ∀ e ∈ (⟨some (nextSendTime cfg st.lastSentAt now),
        ⟨key, nextSendTime cfg st.lastSentAt now, upstream key⟩ :: st.cache⟩ :
          GatewayState).cache, e.key ∉ rest.map Prod.snd := by
      intro e he
      rcases List.mem_cons.mp he with h | h
      · rw [h]
        exact hkeytail
      · have h2 := hcache e h
        simp only [List.map_cons, List.mem_cons, not_or] at h2
        exact h2.2
    obtain ⟨ih1, ih2, ih3, ih4⟩ := ih _ hndtail hcachetail
    rw [hrun]
    simp only [List.filterMap_cons]
    refine ⟨?_, ?_, ?_, ?_⟩
    · intro o ho
      rcases List.mem_cons.mp ho with h | h
      · rw [h]
        rfl
      · exact ih1 o h
    · simp [ih2]
    · exact List.pairwise_cons.mpr ⟨ih4 _ rfl, ih3⟩
    · intro l hl t ht
      have hbound : l + cfg.minIntervalMs ≤ nextSendTime cfg st.lastSentAt now := by
        rw [hl]
        exact le_max_right _ _
      rcases List.mem_cons.mp ht with h | h
      · omega
      · have hfirst := ih4 _ rfl t h
        omega

/-- Claim C1: for a batch of concurrent gateway calls with pairwise
distinct cache keys against a state with an empty cache (so none is a
cache hit), exactly N upstream sends occur — one per call — and the send
timestamps are pairwise separated by at least the configured minimum
interval `PBS_MIN_INTERVAL_MS`; the separation is enforced by the single
process-wide throttle state, hence holds globally across all concurrent
callers, not per caller. -/
theorem pbs_throttle_spacing (cfg : GatewayConfig) (upstream : String → String)
    (last0 : Option Nat) (calls : List (Nat × String))
    (hkeys : (calls.map Prod.snd).Nodup)
    (st' : GatewayState) (outs : List FetchOutcome)
    (hrun : runCalls cfg upstream ⟨last0, []⟩ calls = (st', outs)) :
    (∀ o ∈ outs, o.sentAt.isSome = true)
    ∧ (outs.filterMap FetchOutcome.sentAt).length = calls.length
    ∧ List.Pairwise (fun a b : Nat => a + cfg.minIntervalMs ≤ b)
        (outs.filterMap FetchOutcome.sentAt) := by
  have h := runCalls_throttle_aux cfg upstream calls ⟨last0, []⟩ hkeys (by simp)
  rw [hrun] at h
  exact ⟨h.1, h.2.1, h.2.2.1⟩

/-- Witness for C1: three concurrent calls with distinct keys at a 20000 ms
interval send at timestamps 0, 20000, 40000. -/
theorem pbs_throttle_spacing_witness :
    (∀ o ∈ (runCalls ⟨20000, 300000⟩ (fun k => k) ⟨none, []⟩
        [(0, "a"), (0, "b"), (5, "c")]).2, o.sentAt.isSome = true)
    ∧ ((runCalls ⟨20000, 300000⟩ (fun k => k) ⟨none, []⟩
        [(0, "a"), (0, "b"), (5, "c")]).2.filterMap FetchOutcome.sentAt).length = 3
    ∧ List.Pairwise (fun a b : Nat => a + 20000 ≤ b)
        ((runCalls ⟨20000, 300000⟩ (fun k => k) ⟨none, []⟩
          [(0, "a"), (0, "b"), (5, "c")]).2.filterMap FetchOutcome.sentAt) :=
  pbs_throttle_spacing ⟨20000, 300000⟩ (fun k => k) none
    [(0, "a"), (0, "b"), (5, "c")] (by decide) _ _ rfl

/-! ## Claim C2: cache TTL -/

/-- Claim C2: after a first gateway fetch for a key (against an empty
cache) sends upstream at time `s0`, an identical fetch within the TTL
window returns the same payload with zero upstream sends and leaves the
gateway state — including the throttle timestamp — untouched (no throttle
wait); once the TTL has elapsed, the next identical fetch issues exactly
one new upstream send. -/
theorem pbs_cache_ttl (cfg : GatewayConfig) (upstream : String → String)
    (last0 : Option Nat) (t0 t1 t2 : Nat) (key : String)
    (st1 : GatewayState) (o1 : FetchOutcome) (s0 : Nat)
    (h1 : gatewayFetch cfg upstream ⟨last0, []⟩ t0 key = (st1, o1))
    (hs : o1.sentAt = some s0)
    (hhit : t1 < s0 + cfg.cacheTtlMs)
    (hexp : s0 + cfg.cacheTtlMs ≤ t2) :
    gatewayFetch cfg upstream st1 t1 key = (st1, ⟨o1.payload, none⟩)
    ∧ (gatewayFetch cfg upstream st1 t2 key).2.sentAt
        = some (nextSendTime cfg (some s0) t2) := by
  have hempty : cacheLookup cfg.cacheTtlMs t0 ([] : List CacheEntry) key = none := rfl
  unfold gatewayFetch at h1
  rw [show (⟨last0, []⟩ : GatewayState).cache = [] from rfl, hempty] at h1
  simp only [Prod.mk.injEq] at h1
  obtain ⟨hst1, ho1⟩ := h1
  rw [← ho1] at hs
  simp only at hs
  have hsend : nextSendTime cfg (⟨last0, []⟩ : GatewayState).lastSentAt t0 = s0 :=
    Option.some.inj hs
  rw [hsend] at hst1 ho1
  have hvalid : entryValid cfg.cacheTtlMs t1 s0 = true := by
    unfold entryValid
    simp only [decide_eq_true_eq]
    omega
  have hinvalid : entryValid cfg.cacheTtlMs t2 s0 = false := by
    unfold entryValid
    simp only [decide_eq_false_iff_not]
    omega
  constructor
  · rw [← hst1, ← ho1]
    unfold gatewayFetch cacheLookup
    simp [List.find?_cons, hvalid]
  · rw [← hst1]
    unfold gatewayFetch cacheLookup
    simp [List.find?_cons, hinvalid]

/-- Witness for C2: with TTL 300000 ms, a repeat fetch at t=100 is a cache
hit returning the cached payload with no send and no state change, and a
repeat fetch at t=300000 sends again. -/
theorem pbs_cache_ttl_witness :
    gatewayFetch ⟨20000, 300000⟩ (fun _ => "payload")
        (gatewayFetch ⟨20000, 300000⟩ (fun _ => "payload") ⟨none, []⟩ 0 "schedules").1
        100 "schedules"
      = ((gatewayFetch ⟨20000, 300000⟩ (fun _ => "payload") ⟨none, []⟩ 0 "schedules").1,
         ⟨(gatewayFetch ⟨20000, 300000⟩ (fun _ => "payload") ⟨none, []⟩ 0 "schedules").2.payload,
          none⟩)
    ∧ (gatewayFetch ⟨20000, 300000⟩ (fun _ => "payload")
        (gatewayFetch ⟨20000, 300000⟩ (fun _ => "payload") ⟨none, []⟩ 0 "schedules").1
        300000 "schedules").2.sentAt
      = some (nextSendTime ⟨20000, 300000⟩ (some 0) 300000) :=
  pbs_cache_ttl ⟨20000, 300000⟩ (fun _ => "payload") none 0 100 300000 "schedules"
    _ _ 0 rfl (by decide) (by decide) (by decide)

end MedicalMcp
